import Mathlib

/-!
Shallow embedding of qTox's `src/video/camerasource.cpp` (class `CameraSource`):
the subscription ledger, device-session establishment and teardown, the
streaming-loop publish step, and the frame freelist ("Outstanding-Set").

External collaborators (`CameraDevice`, `Settings`, `VideoMode`, `VideoFrame`,
libav calls) are not part of the translated source; they are modelled as
explicit data / environment oracles, following the specification's description
of their contracts.
-/

set_option autoImplicit false

namespace CameraSource

/-- Modelled from the spec: `VideoMode` (header not in the translated sources) is
a value type `{ width, height, fps }` compared by value, whose all-zero value is
the "default mode" sentinel. -/
structure VideoMode where
  width : Int
  height : Int
  FPS : Int
  deriving DecidableEq, Repr

/-- The all-zero default `VideoMode()` sentinel. -/
def defaultMode : VideoMode := ⟨0, 0, 0⟩

/-- Modelled from the spec: a `CameraDevice` handle (cameradevice.cpp is not in
the translated sources) is reference-counted: `CameraDevice::open(name, mode)`
yields a handle holding one open reference, `handle.open()` adds one, and
`handle.close()` drops one, reporting `true` when the handle is fully closed. -/
structure Device where
  openCount : Nat
  deriving DecidableEq, Repr

/-- Modelled from the spec: a `VideoFrame` handle (videoframe.cpp is not in the
translated sources) is a reference-counted wrapper around one decoded picture
buffer; `alive` says some strong reference still exists (a weak reference locks
successfully iff `alive`), `refsDecoder` says the handle still references
decoder-owned memory (cleared by `releaseFrame`), and `slot` is the freelist
index bound into the handle's release callback at construction. -/
structure Frame where
  alive : Bool
  refsDecoder : Bool
  slot : Nat
  deriving DecidableEq, Repr

instance : Inhabited Frame := ⟨⟨false, false, 0⟩⟩

/-- Session-affecting actions recorded for reasoning about which operations a
call performs: `teardown` is logged by every `closeDevice` run, `physOpenAttempt`
by every fresh `CameraDevice::open` attempt inside `openDevice`. -/
inductive DevEvent where
  | teardown
  | physOpenAttempt
  deriving DecidableEq, Repr

/-- The state of the singleton `CameraSource`: its fields `deviceName`, `mode`,
`_isOpen`, `subscriptions`, `device`, `cctx`, `cctxOrig`, `videoStreamIndex`,
and `freelist`, plus the model-level frame store `frames` (identifiers of all
`VideoFrame`s ever published; freelist slots hold weak references as frame
identifiers), the net count `allocatedCctxs` of decoder contexts allocated and
not yet freed, and the ghost `events` log. -/
structure SourceState where
  deviceName : String
  mode : VideoMode
  _isOpen : Bool
  subscriptions : Int
  device : Option Device
  cctx : Bool
  cctxOrig : Bool
  videoStreamIndex : Int
  allocatedCctxs : Int
  freelist : List (Option Nat)
  frames : List Frame
  events : List DevEvent
  deriving DecidableEq, Repr

/-- The freshly constructed `CameraSource()`: device name "none", default mode,
closed, zero subscriptions, no device, null contexts, stream index -1. -/
def initState : SourceState :=
  { deviceName := "none", mode := defaultMode, _isOpen := false,
    subscriptions := 0, device := none, cctx := false, cctxOrig := false,
    videoStreamIndex := -1, allocatedCctxs := 0, freelist := [], frames := [],
    events := [] }

/-- Modelled from the spec: outcome oracle for one device-session establishment
attempt, covering the external collaborators used by `openDevice`:
`CameraDevice::open` success, the stream descriptors' video classification,
`avcodec_find_decoder`, `avcodec_copy_context` and `avcodec_open2` outcomes. -/
structure OpenEnv where
  devOpen : Bool
  streams : List Bool
  decoderFound : Bool
  copyOk : Bool
  codecOpenOk : Bool
  deriving DecidableEq, Repr

/-- Index of the first stream classified as video, as found by the scan loop in
`CameraSource::openDevice`. -/
def findVideoStream : List Bool → Option Nat
  | [] => none
  | b :: rest => if b then some 0 else (findVideoStream rest).map (· + 1)

/-- An establishment environment in which every step succeeds. -/
def okEnv (e : OpenEnv) : Bool :=
  e.devOpen && (findVideoStream e.streams).isSome && e.decoderFound &&
    e.copyOk && e.codecOpenOk

/-- `CameraSource::openDevice` (camerasource.cpp:287-367). If a device handle is
already present, only `device->open()` runs and the call succeeds. Otherwise a
fresh `CameraDevice::open` is attempted, the handle is additionally opened once
per existing subscriber, the first video stream is located (the member
`videoStreamIndex` is only written when one is found, then tested against -1),
a decoder is resolved, a decoder context is allocated and copied, and the
decoder is opened; each failing step returns `false` right away, releasing only
what the source releases there (nothing, except that a failed `avcodec_open2`
frees the copied context). -/
def openDevice (s : SourceState) (e : OpenEnv) : SourceState × Bool :=
  match s.device with
  | some d =>
    ({ s with device := some { d with openCount := d.openCount + 1 } }, true)
  | none =>
    let s0 := { s with events := s.events ++ [DevEvent.physOpenAttempt] }
    if ¬e.devOpen then (s0, false) else
    let s1 := { s0 with device := some ⟨1 + s0.subscriptions.toNat⟩ }
    let s2 : SourceState :=
      match findVideoStream e.streams with
      | some i => { s1 with videoStreamIndex := (i : Int) }
      | none => s1
    if s2.videoStreamIndex = -1 then (s2, false) else
    let s3 := { s2 with cctxOrig := true }
    if ¬e.decoderFound then (s3, false) else
    let s4 := { s3 with cctx := true, allocatedCctxs := s3.allocatedCctxs + 1 }
    if ¬e.copyOk then (s4, false) else
    if ¬e.codecOpenOk then
      ({ s4 with cctx := false, allocatedCctxs := s4.allocatedCctxs - 1 }, false)
    else (s4, true)

/-- One `freelist[i].lock(); if (vframe) vframe->releaseFrame();` step of the
teardown loop: if the slot holds a weak reference to a still-alive frame, that
frame is force-released (it stops referencing decoder-owned memory). -/
def releaseSlot (frames : List Frame) (slot : Option Nat) : List Frame :=
  match slot with
  | none => frames
  | some fid =>
    match frames[fid]? with
    | none => frames
    | some f =>
      if f.alive then frames.set fid { f with refsDecoder := false } else frames

/-- `CameraSource::closeDevice` (camerasource.cpp:373-399): force-release every
still-live frame reachable from the freelist, clear and squeeze the freelist,
reset `videoStreamIndex` to -1, free `cctx`, close `cctxOrig` and null it, drain
the device handle's open count with `device->close()` until fully closed, and
null the `device` member. -/
def closeDevice (s : SourceState) : SourceState :=
  { s with frames := s.freelist.foldl releaseSlot s.frames,
           freelist := [],
           videoStreamIndex := -1,
           cctx := false,
           allocatedCctxs := s.allocatedCctxs - (if s.cctx then 1 else 0),
           cctxOrig := false,
           device := none,
           events := s.events ++ [DevEvent.teardown] }

/-- Number of `device->close()` calls performed by the drain loop
`while (device && !device->close()) {}` on a handle holding `n` open
references (`close` reports fully-closed when its decrement reaches zero). -/
def deviceCloseCalls : Nat → Nat
  | 0 => 1
  | 1 => 1
  | n + 2 => 1 + deviceCloseCalls (n + 1)

/-- `CameraSource::subscribe` (camerasource.cpp:220-246): when not configured
open, just count the subscription; otherwise attempt `openDevice`, counting the
subscription on success, and on failure drain and null the device handle, null
both context pointers (without freeing the copied context) and invalidate the
stream index, returning `false`. -/
def subscribe (s : SourceState) (e : OpenEnv) : SourceState × Bool :=
  if s._isOpen = false then
    ({ s with subscriptions := s.subscriptions + 1 }, true)
  else
    match openDevice s e with
    | (s1, true) => ({ s1 with subscriptions := s1.subscriptions + 1 }, true)
    | (s1, false) =>
      ({ s1 with device := none, cctx := false, cctxOrig := false,
                 videoStreamIndex := -1 }, false)

/-- `CameraSource::unsubscribe` (camerasource.cpp:248-280): when not configured
open, decrement unconditionally; when configured open with no device, warn and
return without touching the count; when this is the last subscriber, tear the
session down and then decrement; otherwise drop one device open reference and
decrement. -/
def unsubscribe (s : SourceState) : SourceState :=
  if s._isOpen = false then
    { s with subscriptions := s.subscriptions - 1 }
  else if s.device.isNone then s
  else if s.subscriptions - 1 = 0 then
    let s1 := closeDevice s
    { s1 with subscriptions := s1.subscriptions - 1 }
  else
    { s with device := s.device.map (fun d => { d with openCount := d.openCount - 1 }),
             subscriptions := s.subscriptions - 1 }

/-- `CameraSource::open(const QString&, VideoMode)` (camerasource.cpp:142-164):
return immediately when the desired configuration is unchanged; otherwise tear
down the session if subscribed, record the new configuration, set `_isOpen`
to whether the new name is not "none", and re-establish the session when
subscribed and configured open — discarding `openDevice`'s success flag.
`reopenPhase` is the re-establishment tail `if (subscriptions && _isOpen) openDevice();`. -/
def reopenPhase (s : SourceState) (e : OpenEnv) : SourceState :=
  if s.subscriptions ≠ 0 ∧ s._isOpen = true then (openDevice s e).1 else s

/-- `CameraSource::open(const QString&, VideoMode)` (camerasource.cpp:142-164),
see `reopenPhase` above. -/
def open2 (s : SourceState) (dName : String) (m : VideoMode) (e : OpenEnv) : SourceState :=
  if dName = s.deviceName ∧ m = s.mode then s
  else
    reopenPhase
      { (if s.subscriptions ≠ 0 then closeDevice s else s) with
        deviceName := dName, mode := m, _isOpen := decide (dName ≠ "none") } e

/-- Modelled from the spec: the values `CameraSource::open(const QString&)`
(camerasource.cpp:129-140) reads from the `Settings` singleton (settings.h is
not in the translated sources): the screen-region mode, the camera resolution
mode and the camera FPS. -/
structure Settings where
  screenRegion : VideoMode
  camVideoRes : VideoMode
  camVideoFPS : Int
  deriving DecidableEq, Repr

/-- The mode `CameraSource::open(const QString&)` derives from settings: the
screen-region mode when `CameraDevice::isScreen(deviceName)`, else the camera
resolution with the configured FPS. `isScreen` (cameradevice.cpp, not in the
translated sources) is passed as an oracle. -/
def settingsMode (st : Settings) (isScreen : String → Bool) (dName : String) : VideoMode :=
  if isScreen dName then st.screenRegion
  else { st.camVideoRes with FPS := st.camVideoFPS }

/-- `CameraSource::open(const QString&)` (camerasource.cpp:129-140). -/
def open1 (s : SourceState) (st : Settings) (isScreen : String → Bool)
    (dName : String) (e : OpenEnv) : SourceState :=
  open2 s dName (settingsMode st isScreen dName) e

/-- `CameraSource::close` (camerasource.cpp:171-174): `open("none")`. -/
def close (s : SourceState) (st : Settings) (isScreen : String → Bool)
    (e : OpenEnv) : SourceState :=
  open1 s st isScreen "none" e

/-- Whether a freelist slot's weak reference has expired: an empty slot, a
dangling identifier, or a frame with no remaining strong reference. -/
def slotExpired (frames : List Frame) : Option Nat → Bool
  | none => true
  | some fid =>
    match frames[fid]? with
    | none => true
    | some f => !f.alive

/-- The linear scan of `CameraSource::getFreelistSlotLockless`
(camerasource.cpp:487-496): index of the first slot whose weak reference has
expired, if any. -/
def scanExpired (frames : List Frame) : List (Option Nat) → Option Nat
  | [] => none
  | s :: rest =>
    if slotExpired frames s then some 0 else (scanExpired frames rest).map (· + 1)

/-- `CameraSource::getFreelistSlotLockless` (camerasource.cpp:487-496): return
the first expired slot's index; otherwise `resize(size + (size >> 1) + 4)` the
freelist (appending default, expired slots) and return the old size. Returns the
(possibly grown) freelist together with the chosen index. -/
def getFreelistSlotLockless (frames : List Frame) (fl : List (Option Nat)) :
    List (Option Nat) × Nat :=
  match scanExpired frames fl with
  | some i => (fl, i)
  | none => (fl ++ List.replicate (fl.length / 2 + 4) none, fl.length)

/-- The publish step of `CameraSource::stream` (camerasource.cpp:428-435): under
the freelist lock, reserve a slot index, construct a new frame whose release
callback is bound to that index, and then `freelist.append(vframe)` the weak
reference — an append at the end of the (possibly grown) freelist. -/
def publishFrame (s : SourceState) : SourceState :=
  let p := getFreelistSlotLockless s.frames s.freelist
  let fid := s.frames.length
  { s with frames := s.frames ++ [{ alive := true, refsDecoder := true, slot := p.2 }],
           freelist := p.1 ++ [some fid] }

/-- Modelled from the spec: the per-iteration outcomes of the external calls in
the streaming loop — `av_read_frame` success, the packet's stream index, and
whether `avcodec_decode_video2` completed a frame. -/
structure StreamEnv where
  readOk : Bool
  packetStreamIndex : Int
  frameFinished : Bool
  deriving DecidableEq, Repr

/-- One iteration of the `forever` loop in `CameraSource::stream`
(camerasource.cpp:405-463): exit when the device is absent; otherwise read a
packet, and when it belongs to the selected video stream and decodes to a
complete frame, publish it. -/
def streamIteration (s : SourceState) (e : StreamEnv) : SourceState :=
  if s.device.isNone then s
  else if ¬e.readOk then s
  else if e.packetStreamIndex = s.videoStreamIndex ∧ e.frameFinished then
    publishFrame s
  else s

/-- `CameraSource::freelistCallback` (camerasource.cpp:476-480): the unguarded
`freelist[freelistIndex].reset()`. The out-of-bounds access is undefined
behaviour in the source; the model returns `none` there. -/
def freelistCallback (s : SourceState) (i : Nat) : Option SourceState :=
  if i < s.freelist.length then
    some { s with freelist := s.freelist.set i none }
  else none

/-- A call made by client code against the source, together with the
environment outcomes its establishment attempt (if any) would see. `closeC`
carries the settings-derived mode data used by `close()`. -/
inductive Call where
  | sub (e : OpenEnv)
  | unsub
  | openC (d : String) (m : VideoMode) (e : OpenEnv)
  | closeC (st : Settings) (scr : Bool) (e : OpenEnv)

/-- Interpret one call. -/
def runCall (s : SourceState) : Call → SourceState
  | .sub e => (subscribe s e).1
  | .unsub => unsubscribe s
  | .openC d m e => open2 s d m e
  | .closeC st scr e =>
      open2 s "none"
        (if scr then st.screenRegion
         else { st.camVideoRes with FPS := st.camVideoFPS }) e

/-- Interpret a call sequence from a given state. -/
def runFrom (s : SourceState) : List Call → SourceState
  | [] => s
  | c :: cs => runFrom (runCall s c) cs

/-- Interpret a call sequence from the freshly constructed source. -/
def run (cs : List Call) : SourceState := runFrom initState cs

end CameraSource

namespace CameraSource

/-- A fully successful establishment environment with one video stream. -/
def envOK : OpenEnv := ⟨true, [true], true, true, true⟩

/-- Establishment environment where `CameraDevice::open` fails. -/
def envDevFail : OpenEnv := ⟨false, [true], true, true, true⟩

/-- Establishment environment where the device opens but no stream is video. -/
def envNoStream : OpenEnv := ⟨true, [false], true, true, true⟩

/-- Establishment environment where `avcodec_copy_context` fails. -/
def envCopyFail : OpenEnv := ⟨true, [true], true, false, true⟩

/-- A concrete non-default video mode. -/
def m640 : VideoMode := ⟨640, 480, 30⟩

/-- The configured-open/session invariant of the source, as the specification
states it: `_isOpen` tracks `deviceName ≠ "none"`, the subscription count is
nonnegative, the device session exists exactly when configured open with a
positive count, and an existing session has decoder contexts and a valid
stream index. -/
def sourceInv (s : SourceState) : Prop :=
  (s._isOpen = true ↔ s.deviceName ≠ "none") ∧
  0 ≤ s.subscriptions ∧
  (s.device.isSome = true ↔ (s._isOpen = true ∧ 0 < s.subscriptions)) ∧
  (s.device.isSome = true →
    (s.cctx = true ∧ s.cctxOrig = true ∧ 0 ≤ s.videoStreamIndex))

/-- A call is "safe" in a state when its establishment environment is fully
successful and, for unsubscribe, the subscriber count is positive. -/
def safeCall (s : SourceState) : Call → Bool
  | .sub e => okEnv e
  | .unsub => decide (0 < s.subscriptions)
  | .openC _ _ e => okEnv e
  | .closeC _ _ e => okEnv e

/-- Every call of the sequence is safe in the state where it runs. -/
def safeFrom (s : SourceState) : List Call → Bool
  | [] => true
  | c :: cs => safeCall s c && safeFrom (runCall s c) cs

/-- Every live frame still referencing decoder-owned memory has its identifier
recorded in some freelist slot (the invariant the publish step maintains, since
it appends the weak reference to the freelist). -/
def framesTracked (s : SourceState) : Prop :=
  ∀ fid : Nat, fid < s.frames.length →
    (s.frames.getD fid default).alive = true →
    (s.frames.getD fid default).refsDecoder = true →
    some fid ∈ s.freelist

end CameraSource

namespace CameraSource

lemma openDevice_proj (s : SourceState) (e : OpenEnv) :
    (openDevice s e).1.deviceName = s.deviceName ∧
    (openDevice s e).1.mode = s.mode ∧
    (openDevice s e).1.subscriptions = s.subscriptions ∧
    (openDevice s e).1._isOpen = s._isOpen ∧
    (openDevice s e).1.freelist = s.freelist := by
  unfold openDevice
  cases hd : s.device <;> cases hfv : findVideoStream e.streams <;>
    simp only [hfv] <;> (repeat' split) <;> simp

lemma open2_self (s : SourceState) (d : String) (m : VideoMode) (e : OpenEnv)
    (h1 : s.deviceName = d) (h2 : s.mode = m) : open2 s d m e = s := by
  unfold open2
  rw [if_pos ⟨h1.symm, h2.symm⟩]

lemma reopenPhase_proj (s : SourceState) (e : OpenEnv) :
    (reopenPhase s e).deviceName = s.deviceName ∧
    (reopenPhase s e).mode = s.mode ∧
    (reopenPhase s e)._isOpen = s._isOpen ∧
    (reopenPhase s e).subscriptions = s.subscriptions := by
  unfold reopenPhase
  split
  · exact ⟨(openDevice_proj s e).1, (openDevice_proj s e).2.1,
      (openDevice_proj s e).2.2.2.1, (openDevice_proj s e).2.2.1⟩
  · exact ⟨rfl, rfl, rfl, rfl⟩

lemma open2_config (s : SourceState) (d : String) (m : VideoMode) (e : OpenEnv) :
    (open2 s d m e).deviceName = d ∧ (open2 s d m e).mode = m := by
  unfold open2
  split
  · next h => exact ⟨h.1.symm, h.2.symm⟩
  · constructor
    · rw [(reopenPhase_proj _ e).1]
    · rw [(reopenPhase_proj _ e).2.1]

/-- Claim C6: `open` with the current desired configuration is the identity on
the source state (in particular it performs no teardown and no physical open
attempt, since those always append to the event log), and a second `open` with
the same arguments right after a first one changes nothing, whatever the
establishment environments. -/
theorem C6_open_idempotent (s : SourceState) (d : String) (m : VideoMode)
    (e e2 : OpenEnv) :
    open2 s s.deviceName s.mode e = s ∧
    open2 (open2 s d m e) d m e2 = open2 s d m e := by
  refine ⟨open2_self s _ _ e rfl rfl, ?_⟩
  exact open2_self (open2 s d m e) d m e2 (open2_config s d m e).1
    (open2_config s d m e).2

end CameraSource

namespace CameraSource

/-- Claim C10 (amended): whenever a device session already exists and the
source is configured open, `subscribe` succeeds, only incrementing the physical
handle's open count and the subscriber count — no stream lookup, decoder
resolution or context allocation happens (the result does not depend on the
establishment environment, and no event is logged). -/
theorem C10_subscribe_existing_session (s : SourceState) (d : Device)
    (e : OpenEnv) (hopen : s._isOpen = true) (hdev : s.device = some d) :
    subscribe s e =
      ({ s with device := some { d with openCount := d.openCount + 1 },
                subscriptions := s.subscriptions + 1 }, true) := by
  have hod : openDevice s e =
      ({ s with device := some { d with openCount := d.openCount + 1 } }, true) := by
    unfold openDevice
    rw [hdev]
  unfold subscribe
  rw [if_neg (by simp [hopen]), hod]

/-- Witness for C10 at a concrete configured-open state with a live session. -/
theorem C10_witness :
    subscribe
      { initState with deviceName := "camA", _isOpen := true,
                       subscriptions := 1, device := some ⟨1⟩, cctx := true,
                       cctxOrig := true, videoStreamIndex := 0 } envOK =
      ({ initState with deviceName := "camA", _isOpen := true,
                        subscriptions := 2, device := some ⟨2⟩, cctx := true,
                        cctxOrig := true, videoStreamIndex := 0 }, true) := by
  rw [C10_subscribe_existing_session _ ⟨1⟩ envOK rfl rfl]
  rfl

/-- Claim C4 (amended): when the source is configured open and no device
session exists (the zero-subscriber situation the code guards), `unsubscribe`
reports the misuse and leaves the state unchanged; when the source is not
configured open the count is decremented unconditionally and can go below
zero. -/
theorem C4_guarded_noop (s : SourceState) (h1 : s._isOpen = true)
    (h2 : s.device = none) : unsubscribe s = s := by
  unfold unsubscribe
  rw [if_neg (by simp [h1]), if_pos (by simp [h2])]

/-- Witness for C4 at a concrete reachable configured-open state with no
session (result of a failed `open("camA")` establishment). -/
theorem C4_witness :
    unsubscribe (run [.openC "camA" m640 envDevFail]) =
      run [.openC "camA" m640 envDevFail] := by
  exact C4_guarded_noop _ (by decide) (by decide)

/-- Claim C5 (amended): `close()` is `open("none", m)` where `m` is the
settings-derived mode (screen region if "none" is classified as a screen,
otherwise the camera resolution and FPS) — not the all-zero default mode —
and, from any state satisfying the configured-open invariant, it leaves the
source closed. -/
theorem C5_close_settings_mode (s : SourceState) (st : Settings)
    (isScr : String → Bool) (e : OpenEnv)
    (h : s._isOpen = decide (s.deviceName ≠ "none")) :
    close s st isScr e = open2 s "none" (settingsMode st isScr "none") e ∧
    (close s st isScr e)._isOpen = false := by
  refine ⟨rfl, ?_⟩
  unfold close open1 open2
  split
  · next hc => rw [h, ← hc.1]; simp
  · rw [(reopenPhase_proj _ e).2.2.1]
    rfl

/-- Witness for C5 at the freshly constructed source and concrete settings. -/
theorem C5_witness :
    close initState ⟨⟨0,0,0⟩, ⟨640,480,0⟩, 30⟩ (fun _ => false) envOK =
      open2 initState "none"
        (settingsMode ⟨⟨0,0,0⟩, ⟨640,480,0⟩, 30⟩ (fun _ => false) "none") envOK ∧
    (close initState ⟨⟨0,0,0⟩, ⟨640,480,0⟩, 30⟩ (fun _ => false) envOK)._isOpen
      = false :=
  C5_close_settings_mode initState ⟨⟨0,0,0⟩, ⟨640,480,0⟩, 30⟩ (fun _ => false)
    envOK (by decide)

/-- Claim C3 (amended): on the subscribe path, whenever session establishment
fails, `subscribe` returns false and leaves no partial session pointers behind:
device handle null, both decoder-context pointers null, stream index -1. (The
decoder context allocated before a failed context copy is abandoned, not freed,
and on the `open` path no such cleanup happens at all.) -/
theorem C3_subscribe_cleanup (s : SourceState) (e : OpenEnv)
    (h : (subscribe s e).2 = false) :
    (subscribe s e).1.device = none ∧ (subscribe s e).1.cctx = false ∧
    (subscribe s e).1.cctxOrig = false ∧
    (subscribe s e).1.videoStreamIndex = -1 := by
  by_cases ho : s._isOpen = false
  · unfold subscribe at h
    rw [if_pos ho] at h
    simp at h
  · unfold subscribe at h ⊢
    rw [if_neg ho] at h ⊢
    rcases hod : openDevice s e with ⟨s1, b⟩
    cases b
    · exact ⟨rfl, rfl, rfl, rfl⟩
    · rw [hod] at h
      simp at h

/-- Witness for C3 at a concrete failing establishment (device open failure
from a configured-open, device-less state). -/
theorem C3_witness :
    (subscribe (run [.openC "camA" m640 envDevFail]) envDevFail).2 = false ∧
    (subscribe (run [.openC "camA" m640 envDevFail]) envDevFail).1.device = none ∧
    (subscribe (run [.openC "camA" m640 envDevFail]) envDevFail).1.cctx = false ∧
    (subscribe (run [.openC "camA" m640 envDevFail]) envDevFail).1.cctxOrig = false ∧
    (subscribe (run [.openC "camA" m640 envDevFail]) envDevFail).1.videoStreamIndex = -1 := by
  refine ⟨by decide, ?_⟩
  exact C3_subscribe_cleanup _ envDevFail (by decide)

end CameraSource

namespace CameraSource

lemma openDevice_ok (s : SourceState) (e : OpenEnv) (hd : s.device = none)
    (he : okEnv e = true) :
    (openDevice s e).2 = true ∧
    (openDevice s e).1.device.isSome = true ∧
    (openDevice s e).1.cctx = true ∧
    (openDevice s e).1.cctxOrig = true ∧
    0 ≤ (openDevice s e).1.videoStreamIndex := by
  simp only [okEnv, Bool.and_eq_true] at he
  obtain ⟨⟨⟨⟨h1, h2⟩, h3⟩, h4⟩, h5⟩ := he
  obtain ⟨i, hi⟩ := Option.isSome_iff_exists.mp h2
  unfold openDevice
  rw [hd]
  simp only [h1, h3, h4, h5, hi, not_true, if_false, Bool.not_true]
  split
  · next hbad => simp at hbad
  · simp

end CameraSource

namespace CameraSource

lemma openDevice_some (s : SourceState) (d : Device) (e : OpenEnv)
    (hd : s.device = some d) :
    openDevice s e =
      ({ s with device := some { d with openCount := d.openCount + 1 } }, true) := by
  unfold openDevice
  rw [hd]

lemma subscribe_pres (s : SourceState) (e : OpenEnv) (hs : sourceInv s)
    (he : okEnv e = true) : sourceInv (subscribe s e).1 := by
  obtain ⟨i1, i2, i3, i4⟩ := hs
  by_cases ho : s._isOpen = false
  · have hdev : s.device.isSome = false := by
      rw [ho] at i3
      simpa using i3
    unfold subscribe
    rw [if_pos ho]
    refine ⟨i1, ?_, ?_, ?_⟩
    · show 0 ≤ s.subscriptions + 1
      omega
    · show s.device.isSome = true ↔ (s._isOpen = true ∧ 0 < s.subscriptions + 1)
      rw [hdev, ho]
      simp
    · show s.device.isSome = true → _
      rw [hdev]
      simp
  · have ho' : s._isOpen = true := by
      revert ho
      cases s._isOpen <;> simp
    unfold subscribe
    rw [if_neg ho]
    rcases hod : openDevice s e with ⟨s1, b⟩
    cases b
    · -- failure branch: impossible under a fully successful environment
      exfalso
      rcases hd : s.device with _ | d
      · have := (openDevice_ok s e hd he).1
        rw [hod] at this
        simp at this
      · have := openDevice_some s d e hd
        rw [hod] at this
        simp at this
    · -- success branch
      have hname : s1.deviceName = s.deviceName := by
        have := (openDevice_proj s e).1
        rw [hod] at this
        exact this
      have hmode : s1._isOpen = s._isOpen := by
        have := (openDevice_proj s e).2.2.2.1
        rw [hod] at this
        exact this
      have hsubs : s1.subscriptions = s.subscriptions := by
        have := (openDevice_proj s e).2.2.1
        rw [hod] at this
        exact this
      have hsome : s1.device.isSome = true := by
        rcases hd : s.device with _ | d
        · have := (openDevice_ok s e hd he).2.1
          rw [hod] at this
          exact this
        · have := openDevice_some s d e hd
          rw [hod] at this
          have h2 := congrArg (fun p => p.1.device.isSome) this
          simpa using h2
      have hsess : s1.cctx = true ∧ s1.cctxOrig = true ∧ 0 ≤ s1.videoStreamIndex := by
        rcases hd : s.device with _ | d
        · have h1 := (openDevice_ok s e hd he).2.2.1
          have h2 := (openDevice_ok s e hd he).2.2.2.1
          have h3 := (openDevice_ok s e hd he).2.2.2.2
          rw [hod] at h1 h2 h3
          exact ⟨h1, h2, h3⟩
        · have := openDevice_some s d e hd
          rw [hod] at this
          have hx : s1 = { s with device := some { d with openCount := d.openCount + 1 } } := by
            have h2 := congrArg Prod.fst this
            simpa using h2
          have hsome' : s.device.isSome = true := by rw [hd]; rfl
          obtain ⟨a, b, c⟩ := i4 hsome'
          rw [hx]
          exact ⟨a, b, c⟩
      refine ⟨?_, ?_, ?_, ?_⟩
      · show s1._isOpen = true ↔ s1.deviceName ≠ "none"
        rw [hmode, hname]
        exact i1
      · show 0 ≤ s1.subscriptions + 1
        rw [hsubs]
        omega
      · show s1.device.isSome = true ↔ (s1._isOpen = true ∧ 0 < s1.subscriptions + 1)
        rw [hsome, hmode, hsubs, ho']
        constructor
        · intro _
          exact ⟨rfl, by omega⟩
        · intro _
          rfl
      · show s1.device.isSome = true → _
        intro _
        exact hsess

end CameraSource

namespace CameraSource

lemma closeDevice_proj (s : SourceState) :
    (closeDevice s).device = none ∧ (closeDevice s).cctx = false ∧
    (closeDevice s).cctxOrig = false ∧ (closeDevice s).videoStreamIndex = -1 ∧
    (closeDevice s).subscriptions = s.subscriptions ∧
    (closeDevice s).deviceName = s.deviceName ∧
    (closeDevice s).mode = s.mode ∧ (closeDevice s)._isOpen = s._isOpen ∧
    (closeDevice s).freelist = [] := by
  unfold closeDevice
  exact ⟨rfl, rfl, rfl, rfl, rfl, rfl, rfl, rfl, rfl⟩

lemma unsubscribe_pres (s : SourceState) (hs : sourceInv s)
    (hpos : 0 < s.subscriptions) : sourceInv (unsubscribe s) := by
  obtain ⟨i1, i2, i3, i4⟩ := hs
  by_cases ho : s._isOpen = false
  · have hdev : s.device.isSome = false := by
      rw [ho] at i3
      simpa using i3
    unfold unsubscribe
    rw [if_pos ho]
    refine ⟨i1, ?_, ?_, ?_⟩
    · show 0 ≤ s.subscriptions - 1
      omega
    · show s.device.isSome = true ↔ (s._isOpen = true ∧ 0 < s.subscriptions - 1)
      rw [hdev, ho]
      simp
    · show s.device.isSome = true → _
      rw [hdev]
      simp
  · have ho' : s._isOpen = true := by
      revert ho
      cases s._isOpen <;> simp
    have hdev : s.device.isSome = true := i3.mpr ⟨ho', hpos⟩
    obtain ⟨d, hd⟩ := Option.isSome_iff_exists.mp hdev
    unfold unsubscribe
    rw [if_neg ho, if_neg (by simp [hd])]
    by_cases h1 : s.subscriptions - 1 = 0
    · rw [if_pos h1]
      refine ⟨?_, ?_, ?_, ?_⟩
      · show (closeDevice s)._isOpen = true ↔ (closeDevice s).deviceName ≠ "none"
        rw [(closeDevice_proj s).2.2.2.2.2.2.2.1, (closeDevice_proj s).2.2.2.2.2.1]
        exact i1
      · show 0 ≤ (closeDevice s).subscriptions - 1
        rw [(closeDevice_proj s).2.2.2.2.1]
        omega
      · show (closeDevice s).device.isSome = true ↔
          ((closeDevice s)._isOpen = true ∧ 0 < (closeDevice s).subscriptions - 1)
        rw [(closeDevice_proj s).1, (closeDevice_proj s).2.2.2.2.1]
        simp
        omega
      · show (closeDevice s).device.isSome = true → _
        rw [(closeDevice_proj s).1]
        simp
    · rw [if_neg h1]
      have hmap : (s.device.map (fun d => { d with openCount := d.openCount - 1 })).isSome
          = true := by
        rw [hd]
        rfl
      refine ⟨i1, ?_, ?_, ?_⟩
      · show 0 ≤ s.subscriptions - 1
        omega
      · show _ = true ↔ (s._isOpen = true ∧ 0 < s.subscriptions - 1)
        rw [hmap, ho']
        constructor
        · intro _
          exact ⟨rfl, by omega⟩
        · intro _
          rfl
      · show _ = true → (s.cctx = true ∧ s.cctxOrig = true ∧ 0 ≤ s.videoStreamIndex)
        intro _
        exact i4 hdev

lemma open2_pres (s : SourceState) (dn : String) (m : VideoMode) (e : OpenEnv)
    (hs : sourceInv s) (he : okEnv e = true) : sourceInv (open2 s dn m e) := by
  obtain ⟨i1, i2, i3, i4⟩ := hs
  unfold open2
  split
  · exact ⟨i1, i2, i3, i4⟩
  · by_cases hsub : s.subscriptions = 0
    · rw [if_neg (by omega)]
      have hdev : s.device.isSome = false := by
        rw [hsub] at i3
        simpa using i3
      unfold reopenPhase
      rw [if_neg (by simp [hsub])]
      refine ⟨?_, ?_, ?_, ?_⟩
      · show decide (dn ≠ "none") = true ↔ dn ≠ "none"
        simp
      · show 0 ≤ s.subscriptions
        exact i2
      · show s.device.isSome = true ↔ (decide (dn ≠ "none") = true ∧ 0 < s.subscriptions)
        rw [hdev, hsub]
        simp
      · show s.device.isSome = true → (s.cctx = true ∧ s.cctxOrig = true ∧ 0 ≤ s.videoStreamIndex)
        rw [hdev]
        simp
    · rw [if_pos (by omega)]
      by_cases hdn : dn = "none"
      · unfold reopenPhase
        rw [if_neg (by simp [hdn])]
        refine ⟨?_, ?_, ?_, ?_⟩
        · show decide (dn ≠ "none") = true ↔ dn ≠ "none"
          simp
        · show 0 ≤ (closeDevice s).subscriptions
          rw [(closeDevice_proj s).2.2.2.2.1]
          exact i2
        · show (closeDevice s).device.isSome = true ↔
            (decide (dn ≠ "none") = true ∧ _)
          rw [(closeDevice_proj s).1, hdn]
          simp
        · show (closeDevice s).device.isSome = true → _
          rw [(closeDevice_proj s).1]
          simp
      · unfold reopenPhase
        rw [if_pos ?side]
        case side =>
          constructor
          · show ¬((closeDevice s).subscriptions = 0)
            rw [(closeDevice_proj s).2.2.2.2.1]
            exact hsub
          · show decide (dn ≠ "none") = true
            simp [hdn]
        set s2 : SourceState :=
          { (closeDevice s) with deviceName := dn, mode := m,
                                 _isOpen := decide (dn ≠ "none") } with hs2
        have hd2 : s2.device = none := by
          rw [hs2]
          show (closeDevice s).device = none
          exact (closeDevice_proj s).1
        have hok := openDevice_ok s2 e hd2 he
        have hproj := openDevice_proj s2 e
        refine ⟨?_, ?_, ?_, ?_⟩
        · rw [hproj.2.2.2.1, hproj.1]
          show decide (dn ≠ "none") = true ↔ dn ≠ "none"
          simp
        · rw [hproj.2.2.1]
          show 0 ≤ (closeDevice s).subscriptions
          rw [(closeDevice_proj s).2.2.2.2.1]
          exact i2
        · rw [hok.2.1, hproj.2.2.2.1, hproj.2.2.1]
          have hsubs2 : s2.subscriptions = s.subscriptions := by
            rw [hs2]
            show (closeDevice s).subscriptions = s.subscriptions
            exact (closeDevice_proj s).2.2.2.2.1
          rw [hsubs2]
          have hio2 : s2._isOpen = true := by
            rw [hs2]
            show decide (dn ≠ "none") = true
            simp [hdn]
          rw [hio2]
          constructor
          · intro _
            exact ⟨rfl, by omega⟩
          · intro _
            rfl
        · intro _
          exact ⟨hok.2.2.1, hok.2.2.2.1, hok.2.2.2.2⟩

end CameraSource

namespace CameraSource

lemma runCall_pres (s : SourceState) (c : Call) (hs : sourceInv s)
    (hc : safeCall s c = true) : sourceInv (runCall s c) := by
  cases c with
  | sub e => exact subscribe_pres s e hs (by simpa [safeCall] using hc)
  | unsub =>
    refine unsubscribe_pres s hs ?_
    simpa [safeCall] using hc
  | openC d m e => exact open2_pres s d m e hs (by simpa [safeCall] using hc)
  | closeC st scr e =>
    exact open2_pres s "none" _ e hs (by simpa [safeCall] using hc)

lemma runFrom_pres : ∀ (cs : List Call) (s : SourceState), sourceInv s →
    safeFrom s cs = true → sourceInv (runFrom s cs) := by
  intro cs
  induction cs with
  | nil => intro s hs _; exact hs
  | cons c rest ih =>
    intro s hs hsafe
    rw [safeFrom, Bool.and_eq_true] at hsafe
    exact ih (runCall s c) (runCall_pres s c hs hsafe.1) hsafe.2

lemma initState_inv : sourceInv initState := by
  refine ⟨by simp [initState], by simp [initState], by simp [initState], ?_⟩
  intro h
  simp [initState] at h

/-- Claim C1 (amended): for every call sequence in which each establishment
attempt is fully successful and unsubscribe is only called with a positive
subscriber count, the device session (device handle plus decoder contexts and
a valid stream index) is present iff the configured device name is not "none"
and the subscriber count is positive. (Without those provisos the invariant
fails: unsubscribing the fresh source drives the count to -1, and a following
successful `open` creates a session with a nonpositive count.) -/
theorem C1_invariant_safe (cs : List Call)
    (hsafe : safeFrom initState cs = true) :
    ((run cs).device.isSome = true ↔
      ((run cs).deviceName ≠ "none" ∧ 0 < (run cs).subscriptions)) ∧
    ((run cs).device.isSome = true →
      ((run cs).cctx = true ∧ (run cs).cctxOrig = true ∧
        0 ≤ (run cs).videoStreamIndex)) := by
  have hinv : sourceInv (run cs) := runFrom_pres cs initState initState_inv hsafe
  refine ⟨?_, hinv.2.2.2⟩
  rw [hinv.2.2.1, hinv.1]

/-- Witness for C1 on the concrete safe sequence: open "camA", then
subscribe, with fully successful environments. -/
theorem C1_witness :
    safeFrom initState [.openC "camA" m640 envOK, .sub envOK] = true ∧
    ((run [.openC "camA" m640 envOK, .sub envOK]).device.isSome = true ↔
      ((run [.openC "camA" m640 envOK, .sub envOK]).deviceName ≠ "none" ∧
        0 < (run [.openC "camA" m640 envOK, .sub envOK]).subscriptions)) ∧
    ((run [.openC "camA" m640 envOK, .sub envOK]).device.isSome = true →
      ((run [.openC "camA" m640 envOK, .sub envOK]).cctx = true ∧
        (run [.openC "camA" m640 envOK, .sub envOK]).cctxOrig = true ∧
        0 ≤ (run [.openC "camA" m640 envOK, .sub envOK]).videoStreamIndex)) := by
  refine ⟨by decide, ?_, ?_⟩
  · exact (C1_invariant_safe [.openC "camA" m640 envOK, .sub envOK] (by decide)).1
  · exact (C1_invariant_safe [.openC "camA" m640 envOK, .sub envOK] (by decide)).2

end CameraSource

namespace CameraSource

lemma releaseSlot_get (frames : List Frame) (slot : Option Nat) (fid : Nat) :
    (releaseSlot frames slot)[fid]? =
      (frames[fid]?).map (fun f0 =>
        if slot = some fid ∧ f0.alive = true then { f0 with refsDecoder := false }
        else f0) := by
  rcases slot with _ | j
  · unfold releaseSlot
    cases hf : frames[fid]? <;> simp [hf]
  · unfold releaseSlot
    dsimp only
    rcases hj : frames[j]? with _ | fj
    · dsimp only
      cases hf : frames[fid]? with
      | none => simp [hf]
      | some f0 =>
        have hne : ¬(j = fid) := by
          intro h
          rw [h, hf] at hj
          exact Option.noConfusion hj
        simp [hf, hne]
    · dsimp only
      by_cases ha : fj.alive = true
      · rw [if_pos ha, List.getElem?_set']
        by_cases hjf : j = fid
        · subst hjf
          rw [if_pos rfl, hj]
          simp [ha]
        · rw [if_neg hjf]
          cases hf : frames[fid]? with
          | none => simp [hf]
          | some f0 => simp [hf, hjf]
      · rw [if_neg ha]
        cases hf : frames[fid]? with
        | none => simp [hf]
        | some f0 =>
          by_cases hjf : j = fid
          · subst hjf
            rw [hf] at hj
            cases hj
            simp [hf, ha]
          · simp [hf, hjf]

lemma foldl_releaseSlot_get (fl : List (Option Nat)) :
    ∀ (frames : List Frame) (fid : Nat),
      (fl.foldl releaseSlot frames)[fid]? =
        (frames[fid]?).map (fun f0 =>
          if some fid ∈ fl ∧ f0.alive = true then { f0 with refsDecoder := false }
          else f0) := by
  induction fl with
  | nil =>
    intro frames fid
    cases hf : frames[fid]? <;> simp [hf]
  | cons a rest ih =>
    intro frames fid
    rw [List.foldl_cons, ih (releaseSlot frames a) fid, releaseSlot_get,
      Option.map_map]
    cases hf : frames[fid]? with
    | none => simp
    | some f0 =>
      simp only [Option.map_some', Function.comp_apply]
      by_cases hmem : a = some fid
      · by_cases ha : f0.alive = true
        · by_cases hrest : some fid ∈ rest <;>
            simp [List.mem_cons, hmem, ha, hrest]
        · by_cases hrest : some fid ∈ rest <;>
            simp [List.mem_cons, hmem, ha, hrest]
      · have hmem' : ¬(some fid = a) := fun h => hmem h.symm
        by_cases ha : f0.alive = true <;>
          by_cases hrest : some fid ∈ rest <;>
          simp [List.mem_cons, hmem, hmem', ha, hrest]

end CameraSource

namespace CameraSource

lemma deviceCloseCalls_eq (k : Nat) (hk : 1 ≤ k) : deviceCloseCalls k = k := by
  induction k with
  | zero => omega
  | succ n ih =>
    match n, ih with
    | 0, _ => rfl
    | m + 1, ih =>
      rw [deviceCloseCalls]
      rw [ih (by omega)]
      omega

/-- Claim C7: device-session teardown force-releases every still-live frame
reachable from the Outstanding-Set (so afterwards no live frame references
decoder-owned memory), clears and shrinks the set to empty, frees the decoder
context, closes the original codec context, drains the physical handle once per
held open count, and marks the session absent. -/
theorem C7_teardown (s : SourceState) (d : Device)
    (hdev : s.device = some d) (hcnt : 1 ≤ d.openCount)
    (htr : framesTracked s) :
    (closeDevice s).freelist = [] ∧
    (closeDevice s).cctx = false ∧
    (closeDevice s).cctxOrig = false ∧
    (closeDevice s).videoStreamIndex = -1 ∧
    (closeDevice s).device = none ∧
    deviceCloseCalls d.openCount = d.openCount ∧
    (∀ (fid : Nat) (f : Frame), (closeDevice s).frames[fid]? = some f →
      f.alive = true → f.refsDecoder = false) := by
  refine ⟨rfl, rfl, rfl, rfl, rfl, deviceCloseCalls_eq d.openCount hcnt, ?_⟩
  intro fid f hf ha
  have hframes : (closeDevice s).frames = s.freelist.foldl releaseSlot s.frames := rfl
  rw [hframes, foldl_releaseSlot_get] at hf
  cases hf0 : s.frames[fid]? with
  | none => rw [hf0] at hf; exact Option.noConfusion hf
  | some f0 =>
    rw [hf0] at hf
    simp only [Option.map_some'] at hf
    by_cases hc : some fid ∈ s.freelist ∧ f0.alive = true
    · rw [if_pos hc] at hf
      cases hf
      rfl
    · rw [if_neg hc] at hf
      cases hf
      by_contra hrd
      have hrd' : f.refsDecoder = true := by
        revert hrd
        cases f.refsDecoder <;> simp
      have hlt : fid < s.frames.length := by
        by_contra hge
        rw [List.getElem?_eq_none (by omega)] at hf0
        exact Option.noConfusion hf0
      have hgetD : s.frames.getD fid default = f := by
        rw [List.getD_eq_getElem?_getD, hf0]
        rfl
      have hmem := htr fid hlt (by rw [hgetD]; exact ha) (by rw [hgetD]; exact hrd')
      exact hc ⟨hmem, ha⟩

/-- Witness for C7 at a concrete state: one subscriber, a session with open
count 2, and one live frame tracked in the single freelist slot. -/
theorem C7_witness :
    ((closeDevice
        { initState with deviceName := "camA", _isOpen := true,
                         subscriptions := 1, device := some ⟨2⟩, cctx := true,
                         cctxOrig := true, videoStreamIndex := 0,
                         freelist := [some 0],
                         frames := [{ alive := true, refsDecoder := true, slot := 0 }] }).freelist
      = []) ∧
    deviceCloseCalls 2 = 2 ∧
    (∀ (fid : Nat) (f : Frame),
      (closeDevice
        { initState with deviceName := "camA", _isOpen := true,
                         subscriptions := 1, device := some ⟨2⟩, cctx := true,
                         cctxOrig := true, videoStreamIndex := 0,
                         freelist := [some 0],
                         frames := [{ alive := true, refsDecoder := true, slot := 0 }] }).frames[fid]?
        = some f → f.alive = true → f.refsDecoder = false) := by
  have h := C7_teardown
    { initState with deviceName := "camA", _isOpen := true,
                     subscriptions := 1, device := some ⟨2⟩, cctx := true,
                     cctxOrig := true, videoStreamIndex := 0,
                     freelist := [some 0],
                     frames := [{ alive := true, refsDecoder := true, slot := 0 }] }
    ⟨2⟩ rfl (by decide) (by unfold framesTracked; decide)
  exact ⟨h.1, h.2.2.2.2.2.1, h.2.2.2.2.2.2⟩

end CameraSource

namespace CameraSource

/-- Counterexample to claim C1 as stated: unsubscribing the freshly constructed
(closed) source drives the count to -1; a following successful
`open("camA", m)` then establishes a device session, so the session is present
while the subscriber count is not positive, refuting the iff-invariant. -/
theorem C1_counterexample :
    (run [.unsub, .openC "camA" m640 envOK]).device.isSome = true ∧
    (run [.unsub, .openC "camA" m640 envOK]).subscriptions = -1 ∧
    ¬((run [.unsub, .openC "camA" m640 envOK]).device.isSome = true ↔
      ((run [.unsub, .openC "camA" m640 envOK]).deviceName ≠ "none" ∧
        0 < (run [.unsub, .openC "camA" m640 envOK]).subscriptions)) := by
  decide

/-- Claim C2, evaluated at the failing input: on a fresh session the stream
loop reserves slot 0 (the release callback of each constructed frame is bound
to 0), yet `freelist.append` records the weak reference at index 4 of the
grown freelist, leaving the reserved slot expired; a second published frame is
again bound to slot 0 while its reference lands at index 5 — so the weak
reference is never recorded in the reserved slot, two live handles share one
reserved slot, and the set grows by one slot per published frame instead of
being bounded by the live high-water mark. -/
theorem C2_freelist_append_bug :
    (streamIteration (run [.openC "camA" m640 envOK, .sub envOK])
        ⟨true, 0, true⟩).frames[0]? =
      some { alive := true, refsDecoder := true, slot := 0 } ∧
    (streamIteration (run [.openC "camA" m640 envOK, .sub envOK])
        ⟨true, 0, true⟩).freelist[0]? = some none ∧
    (streamIteration (run [.openC "camA" m640 envOK, .sub envOK])
        ⟨true, 0, true⟩).freelist[4]? = some (some 0) ∧
    (streamIteration (run [.openC "camA" m640 envOK, .sub envOK])
        ⟨true, 0, true⟩).freelist.length = 5 ∧
    (streamIteration (streamIteration (run [.openC "camA" m640 envOK, .sub envOK])
        ⟨true, 0, true⟩) ⟨true, 0, true⟩).frames[1]? =
      some { alive := true, refsDecoder := true, slot := 0 } ∧
    (streamIteration (streamIteration (run [.openC "camA" m640 envOK, .sub envOK])
        ⟨true, 0, true⟩) ⟨true, 0, true⟩).freelist[5]? = some (some 1) ∧
    (streamIteration (streamIteration (run [.openC "camA" m640 envOK, .sub envOK])
        ⟨true, 0, true⟩) ⟨true, 0, true⟩).freelist.length = 6 := by
  decide

/-- Counterexample to claim C3 as stated: with one subscriber,
`open("camA", m)` whose establishment finds no video stream leaves the device
member non-null (open count 2) — a partial device session persists on the
`open` path because `open` ignores `openDevice`'s failure; and on the
subscribe path a failed `avcodec_copy_context` leaves the allocated decoder
context unreleased (net allocation count 1) even though the pointer is
nulled. -/
theorem C3_counterexample :
    ((run [.sub envOK, .openC "camA" m640 envNoStream]).device =
        some { openCount := 2 } ∧
     (run [.sub envOK, .openC "camA" m640 envNoStream])._isOpen = true) ∧
    ((subscribe (run [.openC "camA" m640 envDevFail]) envCopyFail).2 = false ∧
     (subscribe (run [.openC "camA" m640 envDevFail]) envCopyFail).1.cctx = false ∧
     (subscribe (run [.openC "camA" m640 envDevFail]) envCopyFail).1.allocatedCctxs = 1) := by
  decide

/-- Counterexample to claim C4 as stated: on the freshly constructed source
(not configured open, zero subscribers) `unsubscribe` is not a no-op — it
decrements the subscriber count to -1. -/
theorem C4_counterexample :
    unsubscribe initState ≠ initState ∧
    (unsubscribe initState).subscriptions = -1 := by
  decide

/-- Counterexample to claim C5 as stated: with camera resolution 640x480 and
30 FPS in the settings, `close()` stores the settings-derived desired mode
⟨640,480,30⟩, while `open("none", defaultMode)` stores the all-zero mode, so
the two resulting states differ. -/
theorem C5_counterexample :
    close initState ⟨⟨0,0,0⟩, ⟨640,480,0⟩, 30⟩ (fun _ => false) envOK ≠
      open2 initState "none" defaultMode envOK := by
  decide

lemma scanExpired_none_all (frames : List Frame) :
    ∀ fl : List (Option Nat), scanExpired frames fl = none →
      fl.all (fun s => !slotExpired frames s) = true := by
  intro fl
  induction fl with
  | nil => intro _; rfl
  | cons a rest ih =>
    intro h
    simp only [scanExpired] at h
    by_cases ha : slotExpired frames a
    · simp [ha] at h
    · rw [if_neg ha, Option.map_eq_none'] at h
      simp [List.all_cons, ha, ih h]

lemma scanExpired_some_spec (frames : List Frame) :
    ∀ (fl : List (Option Nat)) (j : Nat), scanExpired frames fl = some j →
      j < fl.length ∧ slotExpired frames (fl.getD j none) = true ∧
        (fl.take j).all (fun s => !slotExpired frames s) = true := by
  intro fl
  induction fl with
  | nil => intro j h; simp [scanExpired] at h
  | cons a rest ih =>
    intro j h
    simp only [scanExpired] at h
    by_cases ha : slotExpired frames a
    · rw [if_pos ha] at h
      cases h
      simp [ha]
    · rw [if_neg ha] at h
      match hj : scanExpired frames rest with
      | none => rw [hj] at h; simp at h
      | some k =>
        rw [hj] at h
        simp only [Option.map_some'] at h
        cases h
        obtain ⟨hk1, hk2, hk3⟩ := ih k hj
        refine ⟨by simpa using hk1, ?_, ?_⟩
        · simpa using hk2
        · simp [List.take_cons, ha, hk3]

/-- Claim C8: the slot allocator, under the freelist lock, returns the
smallest index holding an expired weak reference when one exists (leaving the
freelist unchanged); when all slots are occupied it grows the freelist so its
new size is C + C/2 + 4 and returns C, the first new slot; in both cases the
returned index is in bounds of the returned freelist. -/
theorem C8_slot_allocator (frames : List Frame) (fl : List (Option Nat)) :
    (getFreelistSlotLockless frames fl).2 <
        (getFreelistSlotLockless frames fl).1.length ∧
    (match scanExpired frames fl with
     | some j =>
        getFreelistSlotLockless frames fl = (fl, j) ∧
        slotExpired frames (fl.getD j none) = true ∧
        (fl.take j).all (fun s => !slotExpired frames s) = true
     | none =>
        fl.all (fun s => !slotExpired frames s) = true ∧
        (getFreelistSlotLockless frames fl).1.length = fl.length + fl.length / 2 + 4 ∧
        (getFreelistSlotLockless frames fl).2 = fl.length) := by
  match h : scanExpired frames fl with
  | some j =>
    obtain ⟨h1, h2, h3⟩ := scanExpired_some_spec frames fl j h
    refine ⟨?_, ?_⟩
    · simp [getFreelistSlotLockless, h, h1]
    · simp only [h]
      exact ⟨by simp [getFreelistSlotLockless, h], h2, h3⟩
  | none =>
    refine ⟨?_, ?_⟩
    · simp only [getFreelistSlotLockless, h, List.length_append,
        List.length_replicate]
      omega
    · simp only [h]
      refine ⟨scanExpired_none_all frames fl h, ?_, ?_⟩
      · simp only [getFreelistSlotLockless, h, List.length_append,
          List.length_replicate]
        omega
      · simp [getFreelistSlotLockless, h]

/-- Claim C9: the release callback's unguarded indexed access into the
Outstanding-Set is in bounds exactly when the slot index is strictly below the
set's current size, and after teardown (which clears the set to empty) every
callback invocation is out of bounds. -/
theorem C9_callback_bounds (s : SourceState) (i : Nat) :
    ((freelistCallback s i).isSome = true ↔ i < s.freelist.length) ∧
    freelistCallback (closeDevice s) i = none := by
  constructor
  · simp [freelistCallback]
  · simp [freelistCallback, closeDevice]

/-- Counterexample to claim C10 as stated: after unsubscribe-below-zero, a
failed open, a successful subscribe and a configuration reset to "none", the
source reaches a state with a live device session but `_isOpen` false; there
`subscribe` still returns true but does not increment the physical handle's
open count (it stays 1). -/
theorem C10_counterexample :
    ((run [.unsub, .openC "camA" m640 envDevFail, .sub envOK,
           .openC "none" defaultMode envOK]).device = some { openCount := 1 }) ∧
    ((subscribe (run [.unsub, .openC "camA" m640 envDevFail, .sub envOK,
                      .openC "none" defaultMode envOK]) envOK).2 = true) ∧
    ((subscribe (run [.unsub, .openC "camA" m640 envDevFail, .sub envOK,
                      .openC "none" defaultMode envOK]) envOK).1.device =
        some { openCount := 1 }) := by
  decide

end CameraSource
